import Mathlib

/-!
Shallow embedding of the qb-port-sync port acquisition and synchronization
engine (Rust sources under src/), covering: the error taxonomy and exit-code
classification (src/error.rs), gateway resolution and the PCP-to-NAT-PMP
fallback chain (src/portmap/mod.rs), the NAT-PMP negotiation path
(src/portmap/natpmp.rs), the daemon cycle's refresh-delay computation and
strategy resolution (src/main.rs), the forwarded-port file watcher and parser
(src/watch.rs), and the qBittorrent listen-port apply step (src/qbit.rs).

External collaborators (the NAT-traversal client library's wire I/O, the
filesystem, the HTTP client, randomness) are passed in as explicit oracle
parameters, so every embedded function is a pure, executable Lean function.
Durations are modelled as natural numbers of milliseconds (all durations in
the source are built from whole seconds, so halving stays exact at this
granularity).
-/

namespace QbPortSync

/-- Rust std::time::Duration, modelled as a count of milliseconds. -/
abbrev Duration := Nat

/-- Duration::from_secs. -/
def Duration.fromSecs (s : Nat) : Duration := s * 1000

/-- Abstract IP address (std::net::IpAddr): only the v4/v6 distinction and
identity matter to the engine. -/
inductive IpAddr
  | v4 (a b c d : Nat)
  | v6 (repr : String)
deriving DecidableEq

/-- src/error.rs: ExitCode. -/
inductive ExitCode
  | success
  | transient
  | config
  | unsupported
deriving DecidableEq

/-- The numeric process exit code of each ExitCode variant
(their Rust discriminants). -/
def ExitCode.code : ExitCode → Nat
  | .success => 0
  | .transient => 1
  | .config => 2
  | .unsupported => 3

/-- src/error.rs: ConfigError (payloads reduced to their display strings). -/
inductive ConfigError
  | io (msg : String)
  | toml (msg : String)
  | missingConfig
  | missingQbPassword
  | forwardedPortUnavailable (path : String)
deriving DecidableEq

/-- src/error.rs: QbitError. -/
inductive QbitError
  | auth (msg : String)
  | unexpectedResponse (status : Nat) (msg : String)
  | deserialize (msg : String)
deriving DecidableEq

/-- src/error.rs: PortMapError. -/
inductive PortMapError
  | pcp (msg : String)
  | pcpNotSupported (msg : String)
  | natPmp (msg : String)
deriving DecidableEq

/-- An anyhow::Error as the engine observes it: either one of the typed
errors the code downcasts to, an UnsupportedError, or an untyped anyhow
message (anyhow!("...")). -/
inductive AppError
  | config (e : ConfigError)
  | unsupported (msg : String)
  | qbit (e : QbitError)
  | portmap (e : PortMapError)
  | other (msg : String)
deriving DecidableEq

/-- Display string of a PortMapError (its thiserror error attributes). -/
def PortMapError.message : PortMapError → String
  | .pcp s => "pcp mapping failed: " ++ s
  | .pcpNotSupported s => "pcp not supported: " ++ s
  | .natPmp s => "nat-pmp mapping failed: " ++ s

/-- Display string of a ConfigError. -/
def ConfigError.message : ConfigError → String
  | .io s => "failed to read config file: " ++ s
  | .toml s => "failed to parse config file: " ++ s
  | .missingConfig =>
      "no configuration file found; pass --config or create one in a standard location"
  | .missingQbPassword =>
      "missing qbittorrent password (set in config or QB_PORT_SYNC_QB_PASSWORD)"
  | .forwardedPortUnavailable s => "forwarded port path unavailable: " ++ s

/-- Display string of an AppError. -/
def AppError.message : AppError → String
  | .config e => e.message
  | .unsupported s => s
  | .qbit (.auth s) => "authentication failed: " ++ s
  | .qbit (.unexpectedResponse _ s) => "unexpected response status: " ++ s
  | .qbit (.deserialize s) =>
      "failed to deserialize qBittorrent preferences: " ++ s
  | .portmap e => e.message
  | .other s => s

/-- src/error.rs: classify_error. The downcast chain is tried in source
order: ConfigError, then UnsupportedError, then PortMapError (where only
PcpNotSupported maps to Unsupported), then the Transient default. -/
def classify_error : AppError → ExitCode
  | .config _ => .config
  | .unsupported _ => .unsupported
  | .portmap (.pcpNotSupported _) => .unsupported
  | .portmap _ => .transient
  | .qbit _ => .transient
  | .other _ => .transient

/-! ## Character-level string helpers

Rust str::trim removes Unicode whitespace; on the ASCII inputs the engine
deals with this coincides with trimming space, tab, CR and LF. A naive
substring test stands in for "the display string carries this message". -/

/-- ASCII whitespace recognizer (agrees with Rust char::is_whitespace on the
ASCII range relevant here). -/
def isWsChar (c : Char) : Bool :=
  c = ' ' || c = '\t' || c = '\n' || c = '\r'

/-- Trim leading and trailing whitespace from a character list. -/
def trimChars (cs : List Char) : List Char :=
  ((cs.dropWhile isWsChar).reverse.dropWhile isWsChar).reverse

/-- Rust str::trim on the engine's ASCII inputs. -/
def strTrim (s : String) : String := ⟨trimChars s.data⟩

/-- Whether the first list is a prefix of the second (Boolean). -/
def isPrefixCh : List Char → List Char → Bool
  | [], _ => true
  | _ :: _, [] => false
  | a :: as, b :: bs => a = b && isPrefixCh as bs

/-- Whether needle occurs as a contiguous substring of hay. -/
def containsSub (hay needle : List Char) : Bool :=
  match hay with
  | [] => needle.isEmpty
  | _ :: rest => isPrefixCh needle hay || containsSub rest needle

/-- String containment: does hay contain needle as a substring? -/
def strContains (hay needle : String) : Bool :=
  containsSub hay.data needle.data

/-! ## Port-mapping data model (src/portmap/mod.rs, src/config.rs) -/

/-- src/config.rs: PortProtocol. -/
inductive PortProtocol
  | tcp
  | udp
  | both
deriving DecidableEq

/-- src/config.rs: PortMapConfig. Ports are u16 values and refresh_secs a
u64 value, carried as Nat. -/
structure PortMapConfig where
  internal_port : Nat
  protocol : PortProtocol
  refresh_secs : Nat
  autodiscover_gateway : Bool
  gateway : Option String
deriving DecidableEq

/-- src/portmap/mod.rs: Protocol. -/
inductive Protocol
  | tcp
  | udp
  | both
deriving DecidableEq

/-- src/portmap/mod.rs: Strategy. -/
inductive Strategy
  | pcp
  | natPmp
deriving DecidableEq

/-- src/portmap/mod.rs: MapResult. -/
structure MapResult where
  external_port : Nat
  ttl : Option Duration
  strategy : Strategy
deriving DecidableEq

/-- src/portmap/mod.rs: MapRequest. -/
structure MapRequest where
  protocol : Protocol
  gateway : IpAddr
  internal_port : Nat
  external_preference : Option Nat
  refresh_secs : Nat
deriving DecidableEq

/-- src/portmap/mod.rs: protocol_from_config. -/
def protocol_from_config : PortProtocol → Protocol
  | .tcp => .tcp
  | .udp => .udp
  | .both => .both

/-- src/portmap/mod.rs: effective_protocol — BOTH collapses to TCP,
everything else passes through (no log statement in its body). -/
def effective_protocol : Protocol → Protocol
  | .both => .tcp
  | other => other

/-- src/portmap/mod.rs: mapping_protocol. -/
def mapping_protocol (protocol : Protocol) : Protocol :=
  effective_protocol protocol

/-- src/portmap/mod.rs: build_result. -/
def build_result (external_port : Nat) (ttl : Option Duration)
    (strategy : Strategy) : MapResult :=
  { external_port := external_port, ttl := ttl, strategy := strategy }

/-- src/portmap/mod.rs: resolve_gateway. parseIp stands for
IpAddr::from_str and discover for default_net::get_default_gateway, both
external collaborators passed in as oracles. -/
def resolve_gateway (config : PortMapConfig)
    (parseIp : String → Except String IpAddr)
    (discover : Except String IpAddr) : Except AppError IpAddr :=
  let configured : Option String :=
    match config.gateway with
    | some gateway => if strTrim gateway = "" then none else some gateway
    | none => none
  match configured with
  | some gateway =>
      match parseIp gateway with
      | .ok ip => .ok ip
      | .error msg =>
          .error (.other ("invalid configured gateway address: " ++ msg))
  | none =>
      if config.autodiscover_gateway then
        match discover with
        | .ok gateway => .ok gateway
        | .error msg =>
            .error (.other ("failed to autodiscover default gateway: " ++ msg))
      else
        .error (.other "gateway discovery disabled and no gateway configured")

/-- src/portmap/mod.rs: resolve_ports. rng stands for the SmallRng draw;
gen_range(49152..=65535) is modelled as 49152 + rng % 16384. -/
def resolve_ports (config : PortMapConfig) (rng : Nat) : Nat × Option Nat :=
  if config.internal_port = 0 then
    (49152 + rng % 16384, none)
  else
    (config.internal_port, some config.internal_port)

/-- src/portmap/mod.rs: build_request. -/
def build_request (config : PortMapConfig) (rng : Nat)
    (parseIp : String → Except String IpAddr)
    (discover : Except String IpAddr) : Except AppError MapRequest :=
  let protocol := protocol_from_config config.protocol
  match resolve_gateway config parseIp discover with
  | .error e => .error e
  | .ok gateway =>
      let ports := resolve_ports config rng
      .ok { protocol := protocol
            gateway := gateway
            internal_port := ports.1
            external_preference := ports.2
            refresh_secs := config.refresh_secs }

/-! ## NAT-PMP negotiation (src/portmap/natpmp.rs)

The natpmp client library is an external collaborator: client construction,
the send of the mapping request, and the stream of read_response_or_retry
outcomes are oracle inputs. The embedding records the wire call that was
issued (protocol after the BOTH-to-TCP collapse, ports, lifetime) and the
log events the function emits — natpmp.rs contains no log statement, so
that list is always empty. -/

/-- natpmp::Protocol of the client library. -/
inductive NatProtocol
  | tcp
  | udp
deriving DecidableEq

/-- Log levels of the tracing crate. -/
inductive LogLevel
  | trace
  | debug
  | info
  | warn
  | error
deriving DecidableEq

/-- One emitted log event. -/
structure LogEvent where
  level : LogLevel
  msg : String
deriving DecidableEq

/-- The send_port_mapping_request wire call as issued. -/
structure NatpmpWireCall where
  protocol : NatProtocol
  internal_port : Nat
  external : Nat
  lifetime : Nat
deriving DecidableEq

/-- One outcome of client.read_response_or_retry(). -/
inductive NatpmpIoEvent
  | udpResp (publicPort : Nat) (lifetime : Duration)
  | tcpResp (publicPort : Nat) (lifetime : Duration)
  | otherResp
  | tryAgain
  | ioErr (msg : String)
deriving DecidableEq

/-- Oracle bundle for one natpmp::map call. -/
structure NatpmpEnv where
  newClient : Except String Unit
  sendResult : Except String Unit
  responses : List NatpmpIoEvent

/-- Everything observable about one natpmp::map call. -/
structure NatpmpOutcome where
  result : Except AppError MapResult
  wireCall : Option NatpmpWireCall
  logs : List LogEvent

/-- The read loop of src/portmap/natpmp.rs lines 40-53: UDP or TCP responses
are definitive, other responses and TRY_AGAIN continue (the 250 ms backoff
sleep has no observable effect here), transport errors abort. An exhausted
event list models the library's eventual receive timeout. -/
def natpmp_read_loop : List NatpmpIoEvent → Except PortMapError (Nat × Duration)
  | [] => .error (.natPmp "gateway did not respond")
  | .udpResp p ttl :: _ => .ok (p, ttl)
  | .tcpResp p ttl :: _ => .ok (p, ttl)
  | .otherResp :: rest => natpmp_read_loop rest
  | .tryAgain :: rest => natpmp_read_loop rest
  | .ioErr msg :: _ => .error (.natPmp msg)

/-- src/portmap/natpmp.rs: map. The refresh_secs to u32 cast is the explicit
mod 2^32; a zero returned lifetime is represented as an absent lease. -/
def natpmp_map (request : MapRequest) (env : NatpmpEnv) : NatpmpOutcome :=
  let protocol := mapping_protocol request.protocol
  let internal_port := request.internal_port
  let external := request.external_preference.getD 0
  let lifetime := request.refresh_secs % 2 ^ 32
  match request.gateway with
  | .v6 _ =>
      { result := .error (.portmap
          (.natPmp "NAT-PMP requires an IPv4 gateway address"))
        wireCall := none
        logs := [] }
  | .v4 _ _ _ _ =>
      match env.newClient with
      | .error msg =>
          { result := .error (.portmap (.natPmp msg))
            wireCall := none
            logs := [] }
      | .ok _ =>
          let nat_protocol :=
            match protocol with
            | .tcp => NatProtocol.tcp
            | .both => NatProtocol.tcp
            | .udp => NatProtocol.udp
          let requested_lifetime := if lifetime = 0 then 0 else lifetime
          let call : NatpmpWireCall :=
            { protocol := nat_protocol
              internal_port := internal_port
              external := external
              lifetime := requested_lifetime }
          match env.sendResult with
          | .error msg =>
              { result := .error (.portmap (.natPmp msg))
                wireCall := some call
                logs := [] }
          | .ok _ =>
              match natpmp_read_loop env.responses with
              | .error e =>
                  { result := .error (.portmap e)
                    wireCall := some call
                    logs := [] }
              | .ok (external_port, ttl) =>
                  let ttl' := if ttl = 0 then none else some ttl
                  { result := .ok (build_result external_port ttl' .natPmp)
                    wireCall := some call
                    logs := [] }

/-- Which protocol attempts a fallback run made, in order. -/
inductive Attempt
  | pcp
  | natpmp
deriving DecidableEq

/-- src/portmap/mod.rs: map_prefer_pcp_fallback_natpmp. pcpTry stands for
try_pcp (either pcp::map under the pcp feature or the immediate
PcpNotSupported error without it). On a PCP error the match at lines 55-61
only chooses a log line; the fallback to NAT-PMP happens for every PCP
error, and the error returned when NAT-PMP also fails is NAT-PMP's alone
(the try_natpmp call's question-mark operator at line 63). The attempt
trace is returned alongside the result. -/
def map_prefer_pcp_fallback_natpmp (config : PortMapConfig) (rng : Nat)
    (parseIp : String → Except String IpAddr)
    (discover : Except String IpAddr)
    (pcpTry : MapRequest → Except AppError MapResult)
    (natEnv : NatpmpEnv) :
    Except AppError MapResult × List Attempt :=
  match build_request config rng parseIp discover with
  | .error e => (.error e, [])
  | .ok request =>
      match pcpTry request with
      | .ok result => (.ok result, [.pcp])
      | .error _ =>
          match (natpmp_map request natEnv).result with
          | .ok result => (.ok result, [.pcp, .natpmp])
          | .error e => (.error e, [.pcp, .natpmp])

/-- src/portmap/mod.rs: map_with_natpmp, with the natpmp wire observations
carried through. -/
def map_with_natpmp (config : PortMapConfig) (rng : Nat)
    (parseIp : String → Except String IpAddr)
    (discover : Except String IpAddr)
    (natEnv : NatpmpEnv) : NatpmpOutcome :=
  match build_request config rng parseIp discover with
  | .error e => { result := .error e, wireCall := none, logs := [] }
  | .ok request => natpmp_map request natEnv

/-! ## qBittorrent apply step (src/qbit.rs)

The preferences payload is a JSON object, modelled as an ordered association
list; the two HTTP round-trips (setPreferences, then preferences) are
oracles. resolve_interface never propagates an error in the source (a fetch
failure is logged and treated as no match), so its outcome is an
Option InterfaceSelection oracle. -/

/-- The JSON values the payload and preferences use. -/
inductive JsonVal
  | num (n : Nat)
  | bool (b : Bool)
  | str (s : String)
deriving DecidableEq

/-- A JSON object as an association list in insertion order. -/
abbrev JsonObj := List (String × JsonVal)

/-- Lookup of a key in a JSON object. -/
def jsonGet (obj : JsonObj) (key : String) : Option JsonVal :=
  (obj.find? (fun kv => kv.1 = key)).map (·.2)

/-- prefs.get(key).and_then(Value::as_u64) followed by u16::try_from. -/
def jsonGetU16 (obj : JsonObj) (key : String) : Option Nat :=
  match jsonGet obj key with
  | some (.num n) => if n ≤ 65535 then some n else none
  | _ => none

/-- prefs.get(key).and_then(Value::as_bool). -/
def jsonGetBool (obj : JsonObj) (key : String) : Option Bool :=
  match jsonGet obj key with
  | some (.bool b) => some b
  | _ => none

/-- src/qbit.rs: InterfaceSelection. -/
structure InterfaceSelection where
  name : String
  id : Option String
deriving DecidableEq

/-- src/qbit.rs: PortUpdateResult. -/
structure PortUpdateResult where
  detected_port : Nat
  verified : Bool
  random_port : Option Bool
  upnp : Option Bool
deriving DecidableEq

/-- Oracle bundle for one set_listen_port call. -/
structure QbitEnv where
  iface : Option InterfaceSelection
  postPrefs : Except AppError Unit
  getPrefs : Except AppError JsonObj

/-- The three unconditional payload entries of set_listen_port,
src/qbit.rs lines 88-91, in insertion order. -/
def base_payload (port : Nat) : JsonObj :=
  [("listen_port", .num port),
   ("random_port", .bool false),
   ("upnp", .bool false)]

/-- The optional interface entries of set_listen_port, lines 93-102:
present only when a non-empty trimmed bind interface was requested and
resolved; an unresolved interface is logged and skipped. -/
def iface_entries (trimmedIface : Option String)
    (iface : Option InterfaceSelection) : JsonObj :=
  match trimmedIface with
  | none => []
  | some _ =>
      match iface with
      | some selection =>
          ("network_interface", .str selection.name) ::
            (match selection.id with
             | some id => [("network_interface_id", .str id)]
             | none => [])
      | none => []

/-- src/qbit.rs: set_listen_port. Returns the payload that was built for the
setPreferences call together with the call's result. The payload always
starts with listen_port, random_port=false and upnp=false; interface entries
follow only for a non-empty trimmed bind_interface that resolves.
detected_port is read back from the queried preferences and verified is
exactly the comparison detected_port == port (line 114). -/
def set_listen_port (port : Nat) (bind_interface : Option String)
    (env : QbitEnv) : JsonObj × Except AppError PortUpdateResult :=
  let trimmedIface :=
    (bind_interface.map strTrim).filter (fun s => s ≠ "")
  let payload := base_payload port ++ iface_entries trimmedIface env.iface
  match env.postPrefs with
  | .error e => (payload, .error e)
  | .ok _ =>
      match env.getPrefs with
      | .error e => (payload, .error e)
      | .ok prefs =>
          match jsonGetU16 prefs "listen_port" with
          | none =>
              (payload,
               .error (.other "qBittorrent preferences missing listen_port"))
          | some detected_port =>
              let random_port := jsonGetBool prefs "random_port"
              let upnp := jsonGetBool prefs "upnp"
              let verified := detected_port == port
              (payload,
               .ok { detected_port := detected_port
                     verified := verified
                     random_port := random_port
                     upnp := upnp })

/-! ## Daemon cycle and refresh delay (src/main.rs) -/

/-- src/main.rs: PortmapMode. -/
inductive PortmapMode
  | auto
  | pcpOnly
  | natOnly
deriving DecidableEq

/-- The delay computation of portmap_cycle, src/main.rs lines 518-521:
map.ttl.map(|ttl| (ttl / 2).max(Duration::from_secs(10)))
      .unwrap_or_else(|| Duration::from_secs(config.portmap.refresh_secs)). -/
def next_delay (ttl : Option Duration) (refresh_secs : Nat) : Duration :=
  match ttl with
  | some t => max (t / 2) (Duration.fromSecs 10)
  | none => Duration.fromSecs refresh_secs

/-- The per-mode negotiation dispatch of portmap_cycle,
src/main.rs lines 484-488 (map_with_pcp inlined as build_request followed
by the try_pcp oracle). -/
def negotiate_for_mode (mode : PortmapMode) (config : PortMapConfig)
    (rng : Nat) (parseIp : String → Except String IpAddr)
    (discover : Except String IpAddr)
    (pcpTry : MapRequest → Except AppError MapResult)
    (natEnv : NatpmpEnv) : Except AppError MapResult :=
  match mode with
  | .auto =>
      (map_prefer_pcp_fallback_natpmp config rng parseIp discover
        pcpTry natEnv).1
  | .pcpOnly =>
      match build_request config rng parseIp discover with
      | .error e => .error e
      | .ok request => pcpTry request
  | .natOnly =>
      (map_with_natpmp config rng parseIp discover natEnv).result

/-- src/main.rs: portmap_cycle — one negotiation (per mode), one apply, and
the next wake delay on success. The metrics block and the two info/warn log
lines have no effect on the returned value. -/
def portmap_cycle (mode : PortmapMode) (config : PortMapConfig)
    (bind_interface : Option String) (rng : Nat)
    (parseIp : String → Except String IpAddr)
    (discover : Except String IpAddr)
    (pcpTry : MapRequest → Except AppError MapResult)
    (natEnv : NatpmpEnv) (qb : QbitEnv) : Except AppError Duration :=
  match negotiate_for_mode mode config rng parseIp discover pcpTry natEnv with
  | .error e => .error e
  | .ok map =>
      match (set_listen_port map.external_port bind_interface qb).2 with
      | .error e => .error e
      | .ok _update => .ok (next_delay map.ttl config.refresh_secs)

/-! ## Strategy resolution (src/main.rs)

Filesystem paths are component lists and the filesystem an existence
predicate; resolved is Config::resolved_forwarded_port_path's outcome
(None when neither configuration nor the platform provides a path). The
embedded functions follow the target_os = linux branches, the platform the
claims address. -/

/-- A filesystem path as its component list. -/
abbrev FsPath := List String

/-- Rust Path::parent — drop the last component; none for an empty path. -/
def FsPath.parent : FsPath → Option FsPath
  | [] => none
  | path => some path.dropLast

/-- Path display used in error payloads. -/
def FsPath.display (path : FsPath) : String :=
  String.intercalate "/" path

/-- src/main.rs: StrategyPlan. -/
inductive StrategyPlan
  | file (path : FsPath)
  | portmap (mode : PortmapMode)
deriving DecidableEq

/-- src/main.rs: StrategyOpt (the --strategy CLI value). -/
inductive StrategyOpt
  | file
  | pcp
  | natpmp
  | auto
deriving DecidableEq

/-- src/main.rs: prefer_file_strategy (the target_os = linux branch): true
iff the resolved forwarded-port file exists, or failing that its parent
directory exists. -/
def prefer_file_strategy (fs : FsPath → Bool)
    (resolved : Option FsPath) : Bool :=
  match resolved with
  | some path =>
      if fs path then true
      else
        match path.parent with
        | some parent => fs parent
        | none => false
  | none => false

/-- src/main.rs: resolve_forwarded_port_path. -/
def resolve_forwarded_port_path (fs : FsPath → Bool)
    (resolved : Option FsPath) : Except AppError FsPath :=
  match resolved with
  | none =>
      .error (.unsupported "forwarded port file path unavailable on this platform")
  | some path =>
      match path.parent with
      | some parent =>
          if fs parent then .ok path
          else .error (.config (.forwardedPortUnavailable parent.display))
      | none => .error (.config (.forwardedPortUnavailable path.display))

/-- src/main.rs: resolve_plan. -/
def resolve_plan (strategy : StrategyOpt) (fs : FsPath → Bool)
    (resolved : Option FsPath) : Except AppError StrategyPlan :=
  match strategy with
  | .file =>
      match resolve_forwarded_port_path fs resolved with
      | .error e => .error e
      | .ok path => .ok (.file path)
  | .pcp => .ok (.portmap .pcpOnly)
  | .natpmp => .ok (.portmap .natOnly)
  | .auto =>
      if prefer_file_strategy fs resolved then
        match resolve_forwarded_port_path fs resolved with
        | .error e => .error e
        | .ok path => .ok (.file path)
      else
        .ok (.portmap .auto)

/-! ## The run entry point's guard sequence (src/main.rs: run) -/

/-- src/main.rs: Cli. -/
structure Cli where
  config : Option FsPath
  once : Bool
  strategy : StrategyOpt
  json : Bool
  verbose : Nat

/-- Oracles for the fallible stages of run, in source order: configuration
load, password lookup, base-URL parse, HTTP client construction, the login
round-trip (the first network call of a run), and the run_once/run_daemon
execution after plan resolution, summarized as its exit code and how many
further network calls it made. -/
structure RunEnv where
  configLoad : Except AppError Unit
  password : Except AppError String
  urlParse : Except String Unit
  clientNew : Except AppError Unit
  login : Except AppError Unit
  execute : ExitCode × Nat

/-- src/main.rs: run, observed as the process exit code and the number of
network calls attempted. The json-without-once guard at lines 113-121 comes
first and returns ExitCode::Config directly; every later stage follows in
source order, with login as the first network call. -/
def run (cli : Cli) (env : RunEnv) (fs : FsPath → Bool)
    (resolved : Option FsPath) : ExitCode × Nat :=
  if cli.json && !cli.once then (.config, 0)
  else
    match env.configLoad with
    | .error e => (classify_error e, 0)
    | .ok _ =>
        match env.password with
        | .error e => (classify_error e, 0)
        | .ok _ =>
            match env.urlParse with
            | .error _ => (.config, 0)
            | .ok _ =>
                match env.clientNew with
                | .error e => (classify_error e, 0)
                | .ok _ =>
                    match env.login with
                    | .error e => (classify_error e, 1)
                    | .ok _ =>
                        match resolve_plan cli.strategy fs resolved with
                        | .error e => (classify_error e, 1)
                        | .ok _plan =>
                            (env.execute.1, 1 + env.execute.2)

/-! ## Forwarded-port parsing and the file watcher (src/watch.rs) -/

/-- Decimal digit accumulation for str::parse. -/
def digitsToNat : List Char → Option Nat → Option Nat
  | [], acc => acc
  | c :: rest, acc =>
      if c.isDigit then
        digitsToNat rest (some ((acc.getD 0) * 10 + (c.toNat - '0'.toNat)))
      else
        none

/-- The numeric value of a decimal digit string (most significant digit
first). -/
def digitsVal (cs : List Char) : Nat :=
  cs.foldl (fun acc c => acc * 10 + (c.toNat - '0'.toNat)) 0

/-- The optional leading plus sign Rust's unsigned FromStr accepts. -/
def stripPlus (cs : List Char) : List Char :=
  match cs with
  | c :: rest => if c = '+' then rest else c :: rest
  | [] => []

/-- Rust str::parse::<u16>: an optional leading plus sign, then at least one
decimal digit, with the value bounded by 65535. -/
def rust_parse_u16 (s : String) : Option Nat :=
  match digitsToNat (stripPlus s.data) none with
  | some n => if n ≤ 65535 then some n else none
  | none => none

/-- src/watch.rs: parse_port — trim, then parse as u16. -/
def parse_port (contents : String) : Except String Nat :=
  let trimmed := strTrim contents
  match rust_parse_u16 trimmed with
  | some port => .ok port
  | none => .error ("invalid forwarded port value: " ++ trimmed)

/-- Except to Option, for stating success and failure uniformly. -/
def exceptToOption : Except String Nat → Option Nat
  | .ok a => some a
  | .error _ => none

/-- The event loop of src/watch.rs run_file_watcher, lines 50-77. Each list
entry is the outcome of one relevant filesystem event after the 250 ms
debounce re-read (handle_event): some port when the file parsed, none when
the re-read failed (tolerated). applyOk gives the outcome of the k-th
update_listen_port call; a failed apply propagates out of the loop through
the question-mark operator, ending the run. The returned list holds the
ports passed to update_listen_port, in order: a port is applied only when
it differs from last, and last advances to it afterwards. -/
def watcher_loop (applyOk : Nat → Bool) :
    Option Nat → Nat → List (Option Nat) → List Nat
  | _, _, [] => []
  | last, k, none :: rest => watcher_loop applyOk last k rest
  | last, k, some port :: rest =>
      if last = some port then watcher_loop applyOk last k rest
      else
        port ::
          (if applyOk k then watcher_loop applyOk (some port) (k + 1) rest
           else [])

/-- src/watch.rs: run_file_watcher observed as the applied-port sequence.
initialRead is the pre-loop read of the existing file (lines 42-46): when it
parses, its port is applied first and seeds last. -/
def run_file_watcher (applyOk : Nat → Bool) (initialRead : Option Nat)
    (events : List (Option Nat)) : List Nat :=
  match initialRead with
  | some port =>
      port ::
        (if applyOk 0 then watcher_loop applyOk (some port) 1 events else [])
  | none => watcher_loop applyOk none 0 events

/-! ## Concrete sample inputs used by witnesses and counterexamples -/

/-- A concrete IPv4 gateway address. -/
def sampleGateway : IpAddr := .v4 10 2 0 1

/-- An IpAddr::from_str oracle that accepts everything as the sample
gateway. -/
def parseOkSample : String → Except String IpAddr := fun _ => .ok sampleGateway

/-- A gateway-autodiscovery oracle that fails. -/
def discoverFail : Except String IpAddr := .error "no default route"

/-- A port-map configuration with an explicitly configured gateway. -/
def cfgSample : PortMapConfig :=
  { internal_port := 6881
    protocol := .tcp
    refresh_secs := 300
    autodiscover_gateway := false
    gateway := some "10.2.0.1" }

/-- The same configuration asking for protocol BOTH. -/
def cfgBoth : PortMapConfig := { cfgSample with protocol := .both }

/-- A configuration with no gateway and autodiscovery disabled. -/
def cfgNoGateway : PortMapConfig :=
  { internal_port := 6881
    protocol := .tcp
    refresh_secs := 300
    autodiscover_gateway := false
    gateway := none }

/-- The request build_request produces from cfgSample. -/
def requestSample : MapRequest :=
  { protocol := .tcp
    gateway := sampleGateway
    internal_port := 6881
    external_preference := some 6881
    refresh_secs := 300 }

/-- A NAT-PMP environment answering with a definitive TCP response carrying
a 60-second lease. -/
def natEnvOk : NatpmpEnv :=
  { newClient := .ok ()
    sendResult := .ok ()
    responses := [.tcpResp 23456 (Duration.fromSecs 60)] }

/-- A NAT-PMP environment answering with a 30-second lease. -/
def natEnv30 : NatpmpEnv :=
  { newClient := .ok ()
    sendResult := .ok ()
    responses := [.tcpResp 23456 (Duration.fromSecs 30)] }

/-- A NAT-PMP environment whose transport fails. -/
def natEnvBoom : NatpmpEnv :=
  { newClient := .ok ()
    sendResult := .ok ()
    responses := [.ioErr "nat boom"] }

/-- The try_pcp outcome when the pcp feature is compiled out. -/
def pcpUnsupported : MapRequest → Except AppError MapResult :=
  fun _ =>
    .error (.portmap (.pcpNotSupported "pcp feature not enabled at compile time"))

/-- A try_pcp oracle that fails with a PCP negotiation error. -/
def pcpBoom : MapRequest → Except AppError MapResult :=
  fun _ => .error (.portmap (.pcp "pcp boom"))

/-- The mapping natEnvOk yields. -/
def natResultSample : MapResult :=
  build_result 23456 (some (Duration.fromSecs 60)) .natPmp

/-- A qBittorrent environment that confirms port 23456. -/
def qbEnvSample : QbitEnv :=
  { iface := none
    postPrefs := .ok ()
    getPrefs := .ok [("listen_port", .num 23456),
                     ("random_port", .bool false),
                     ("upnp", .bool false)] }

/-- A qBittorrent environment that confirms port 4242. -/
def qbEnv4242 : QbitEnv :=
  { iface := none
    postPrefs := .ok ()
    getPrefs := .ok [("listen_port", .num 4242)] }

/-- The update result qbEnv4242 produces for a request of port 4242. -/
def updateResult4242 : PortUpdateResult :=
  { detected_port := 4242, verified := true, random_port := none, upnp := none }

/-- A concrete forwarded-port directory and file, and a filesystem where
only the directory exists. -/
def vpnDir : FsPath := ["run", "user", "1000", "Proton", "VPN"]

/-- The forwarded-port file inside vpnDir. -/
def vpnFile : FsPath := vpnDir ++ ["forwarded_port"]

/-- A filesystem on which exactly vpnDir exists. -/
def fsOnlyDir : FsPath → Bool := fun path => path = vpnDir

/-! ## Helper lemmas -/

/-- Every successful natpmp::map result carries Strategy::NatPmp
(build_result is only ever called with NatPmp in natpmp.rs). -/
theorem natpmp_map_ok_strategy (request : MapRequest) (env : NatpmpEnv)
    (r : MapResult) (h : (natpmp_map request env).result = .ok r) :
    r.strategy = .natPmp := by
  rcases request with ⟨proto, gw, ip, ep, rs⟩
  rcases env with ⟨nc, sr, resp⟩
  cases gw with
  | v6 s => simp [natpmp_map] at h
  | v4 a b c d =>
    cases nc with
    | error m => simp [natpmp_map] at h
    | ok u =>
      cases sr with
      | error m => simp [natpmp_map] at h
      | ok v =>
        cases hrl : natpmp_read_loop resp with
        | error e => simp [natpmp_map, hrl] at h
        | ok pr =>
          simp [natpmp_map, hrl, build_result] at h
          subst h
          rfl

/-- The watcher loop never applies the same port twice in a row, and its
first application differs from the seed value. -/
theorem watcher_loop_chain (applyOk : Nat → Bool) :
    ∀ (events : List (Option Nat)) (last : Option Nat) (k : Nat),
      List.Chain' (· ≠ ·) (watcher_loop applyOk last k events) ∧
      ∀ q, (watcher_loop applyOk last k events).head? = some q →
        last ≠ some q := by
  intro events
  induction events with
  | nil =>
      intro last k
      refine ⟨List.chain'_nil, ?_⟩
      intro q hq
      simp [watcher_loop] at hq
  | cons ev rest ih =>
      intro last k
      cases ev with
      | none => simpa [watcher_loop] using ih last k
      | some p =>
          by_cases hl : last = some p
          · subst hl
            simpa [watcher_loop] using ih (some p) k
          · by_cases ha : applyOk k
            · refine ⟨?_, ?_⟩
              · rw [watcher_loop, if_neg hl, if_pos ha, List.chain'_cons']
                refine ⟨?_, (ih (some p) (k + 1)).1⟩
                intro y hy
                have hne := (ih (some p) (k + 1)).2 y hy
                intro hpy
                exact hne (by rw [hpy])
              · intro q hq
                rw [watcher_loop, if_neg hl, if_pos ha] at hq
                simp only [List.head?_cons, Option.some.injEq] at hq
                subst hq
                exact hl
            · refine ⟨?_, ?_⟩
              · rw [watcher_loop, if_neg hl, if_neg ha]
                exact List.chain'_singleton p
              · intro q hq
                rw [watcher_loop, if_neg hl, if_neg ha] at hq
                simp only [List.head?_cons, Option.some.injEq] at hq
                subst hq
                exact hl

/-- The payload of set_listen_port is the three unconditional entries
followed by the interface entries, on every outcome of the call. -/
theorem set_listen_port_payload (port : Nat) (bind_interface : Option String)
    (env : QbitEnv) :
    (set_listen_port port bind_interface env).1 =
      base_payload port ++
        iface_entries ((bind_interface.map strTrim).filter (fun s => s ≠ ""))
          env.iface := by
  rcases env with ⟨ifc, post, get⟩
  cases post with
  | error e => rfl
  | ok u =>
      cases get with
      | error e => rfl
      | ok prefs =>
          cases h : jsonGetU16 prefs "listen_port" with
          | none => simp [set_listen_port, h]
          | some dp => simp [set_listen_port, h]

/-- The trimmed string's character list is the trimmed character list. -/
theorem strTrim_data (s : String) : (strTrim s).data = trimChars s.data := rfl

/-- A decimal digit is not whitespace. -/
theorem isWsChar_eq_false_of_digit (c : Char) (h : c.isDigit = true) :
    isWsChar c = false := by
  cases hb : isWsChar c
  · rfl
  · exfalso
    simp only [isWsChar, Bool.or_eq_true, decide_eq_true_eq] at hb
    rcases hb with ((h1 | h1) | h1) | h1 <;> subst h1 <;>
      exact absurd h (by decide)

/-- dropWhile skips over a fully-satisfying prefix. -/
theorem dropWhile_ws_append (w rest : List Char)
    (hw : ∀ c ∈ w, isWsChar c = true) :
    (w ++ rest).dropWhile isWsChar = rest.dropWhile isWsChar := by
  induction w with
  | nil => rfl
  | cons c w ih =>
      have hc : isWsChar c = true := hw c (by simp)
      simp only [List.cons_append, List.dropWhile_cons, hc, if_true]
      exact ih (fun x hx => hw x (by simp [hx]))

/-- dropWhile is the identity on a list of non-matching characters. -/
theorem dropWhile_eq_self_of_all (l : List Char)
    (h : ∀ c ∈ l, isWsChar c = false) : l.dropWhile isWsChar = l := by
  cases l with
  | nil => rfl
  | cons x xs => simp [List.dropWhile_cons, h x (by simp)]

/-- Trimming a digit string surrounded only by whitespace yields exactly the
digit string. -/
theorem trimChars_ws_wrap (w1 ds w2 : List Char)
    (h1 : ∀ c ∈ w1, isWsChar c = true) (h2 : ∀ c ∈ w2, isWsChar c = true)
    (hne : ds ≠ []) (hds : ∀ c ∈ ds, c.isDigit = true) :
    trimChars (w1 ++ ds ++ w2) = ds := by
  cases ds with
  | nil => exact absurd rfl hne
  | cons d rest =>
      have hd : isWsChar d = false :=
        isWsChar_eq_false_of_digit d (hds d (by simp))
      have hall : ∀ c ∈ rest.reverse ++ [d], isWsChar c = false := by
        intro c hc
        have hmem : c ∈ d :: rest := by
          rcases List.mem_append.mp hc with h | h
          · exact List.mem_cons_of_mem d (List.mem_reverse.mp h)
          · simp only [List.mem_singleton] at h
            subst h
            exact List.mem_cons_self _ _
        exact isWsChar_eq_false_of_digit c (hds c hmem)
      unfold trimChars
      rw [List.append_assoc,
        dropWhile_ws_append w1 (d :: rest ++ w2) h1,
        List.cons_append, List.dropWhile_cons, hd]
      simp only [Bool.false_eq_true, if_false]
      rw [List.reverse_cons, List.reverse_append, List.append_assoc,
        dropWhile_ws_append w2.reverse (rest.reverse ++ [d])
          (fun c hc => h2 c (List.mem_reverse.mp hc)),
        dropWhile_eq_self_of_all (rest.reverse ++ [d]) hall,
        List.reverse_append, List.reverse_reverse]
      rfl

/-- The plus-stripper is the identity on a digit string. -/
theorem stripPlus_eq_self_of_digit (ds : List Char)
    (hds : ∀ c ∈ ds, c.isDigit = true) : stripPlus ds = ds := by
  cases ds with
  | nil => rfl
  | cons c rest =>
      have hc : c ≠ '+' := by
        intro h
        subst h
        exact absurd (hds '+' (by simp)) (by decide)
      simp [stripPlus, hc]

/-- Digit accumulation over an all-digit list from a seeded accumulator. -/
theorem digitsToNat_some_eq (cs : List Char) :
    ∀ a : Nat, (∀ c ∈ cs, c.isDigit = true) →
      digitsToNat cs (some a) =
        some (cs.foldl (fun acc c => acc * 10 + (c.toNat - '0'.toNat)) a) := by
  induction cs with
  | nil => intro a _; rfl
  | cons c rest ih =>
      intro a h
      have hc : c.isDigit = true := h c (by simp)
      simp only [digitsToNat, hc, if_true, Option.getD_some, List.foldl_cons]
      exact ih (a * 10 + (c.toNat - '0'.toNat))
        (fun x hx => h x (by simp [hx]))

/-- A nonempty all-digit list parses to its decimal value. -/
theorem digitsToNat_digits (ds : List Char) (hne : ds ≠ [])
    (hds : ∀ c ∈ ds, c.isDigit = true) :
    digitsToNat ds none = some (digitsVal ds) := by
  cases ds with
  | nil => exact absurd rfl hne
  | cons c rest =>
      have hc : c.isDigit = true := hds c (by simp)
      simp only [digitsToNat, hc, if_true, Option.getD_none]
      rw [digitsToNat_some_eq rest (0 * 10 + (c.toNat - '0'.toNat))
        (fun x hx => hds x (by simp [hx]))]
      rfl

/-- A list containing a non-digit character never parses, from any
accumulator. -/
theorem digitsToNat_nondigit (cs : List Char) :
    ∀ (acc : Option Nat) (c : Char), c ∈ cs → c.isDigit = false →
      digitsToNat cs acc = none := by
  induction cs with
  | nil => intro acc c hc _; simp at hc
  | cons x rest ih =>
      intro acc c hc hnd
      cases hx : x.isDigit
      · simp [digitsToNat, hx]
      · have hcr : c ∈ rest := by
          rcases List.mem_cons.mp hc with h | h
          · subst h
            rw [hnd] at hx
            cases hx
          · exact h
        simp only [digitsToNat, hx, if_true]
        exact ih _ c hcr hnd

/-! ## Claim theorems -/

/-- C8: the forwarded-port parser fails on every input whose trimmed,
plus-stripped content is empty (in particular the empty string) or contains
a non-digit character; it fails on every all-digit input whose value exceeds
65535; and for every nonempty decimal digit string of value at most 65535
surrounded only by whitespace it succeeds and returns that value — together
with the four exemplar inputs of the claim. -/
theorem parse_port_boundary :
    (∀ s : String,
      (stripPlus (trimChars s.data) = [] ∨
        ∃ c ∈ stripPlus (trimChars s.data), c.isDigit = false) →
      exceptToOption (parse_port s) = none) ∧
    (∀ s : String,
      (∀ c ∈ stripPlus (trimChars s.data), c.isDigit = true) →
      65535 < digitsVal (stripPlus (trimChars s.data)) →
      exceptToOption (parse_port s) = none) ∧
    (∀ w1 ds w2 : List Char,
      (∀ c ∈ w1, isWsChar c = true) → (∀ c ∈ w2, isWsChar c = true) →
      ds ≠ [] → (∀ c ∈ ds, c.isDigit = true) → digitsVal ds ≤ 65535 →
      parse_port ⟨w1 ++ ds ++ w2⟩ = .ok (digitsVal ds)) ∧
    exceptToOption (parse_port "") = none ∧
    exceptToOption (parse_port "abc") = none ∧
    exceptToOption (parse_port "70000") = none ∧
    parse_port " 51820 \n" = .ok 51820 := by
  refine ⟨?_, ?_, ?_, rfl, rfl, rfl, rfl⟩
  · intro s h
    have hbody : digitsToNat (stripPlus (trimChars s.data)) none = none := by
      rcases h with hemp | ⟨c, hc, hnd⟩
      · rw [hemp]
        rfl
      · exact digitsToNat_nondigit _ none c hc hnd
    have hr : rust_parse_u16 (strTrim s) = none := by
      unfold rust_parse_u16
      rw [strTrim_data, hbody]
    simp [parse_port, hr, exceptToOption]
  · intro s hall hgt
    have hne : stripPlus (trimChars s.data) ≠ [] := by
      intro h0
      rw [h0] at hgt
      exact absurd hgt (by decide)
    have hr : rust_parse_u16 (strTrim s) = none := by
      unfold rust_parse_u16
      rw [strTrim_data, digitsToNat_digits _ hne hall]
      simp [Nat.not_le.mpr hgt]
    simp [parse_port, hr, exceptToOption]
  · intro w1 ds w2 h1 h2 hne hds hval
    have hr : rust_parse_u16 (strTrim ⟨w1 ++ ds ++ w2⟩) =
        some (digitsVal ds) := by
      unfold rust_parse_u16
      rw [strTrim_data]
      show (match digitsToNat (stripPlus (trimChars (w1 ++ ds ++ w2))) none
        with
        | some n => if n ≤ 65535 then some n else none
        | none => none) = some (digitsVal ds)
      rw [trimChars_ws_wrap w1 ds w2 h1 h2 hne hds,
        stripPlus_eq_self_of_digit ds hds, digitsToNat_digits ds hne hds]
      simp [hval]
    simp only [parse_port]
    rw [hr]

/-- C8 witness: the quantified parts at concrete inputs — "abc" is
non-numeric, "70000" is out of range, and " 51820 \n" is the digit string
51820 surrounded by whitespace. -/
theorem parse_port_boundary_witness :
    exceptToOption (parse_port "abc") = none ∧
    exceptToOption (parse_port "70000") = none ∧
    parse_port ⟨[' '] ++ ['5', '1', '8', '2', '0'] ++ [' ', '\n']⟩ =
      .ok (digitsVal ['5', '1', '8', '2', '0']) :=
  ⟨parse_port_boundary.1 "abc" (by decide),
   parse_port_boundary.2.1 "70000" (by decide) (by decide),
   parse_port_boundary.2.2.1 [' '] ['5', '1', '8', '2', '0'] [' ', '\n']
     (by decide) (by decide) (by decide) (by decide) (by decide)⟩

/-- C9: a run invoked with the JSON flag but without the single-shot flag
exits with the configuration exit code 2 having attempted zero network
calls, whatever the rest of the environment holds. -/
theorem json_without_once_rejected_before_network :
    ∀ (cfgPath : Option FsPath) (strategy : StrategyOpt) (verbose : Nat)
      (env : RunEnv) (fs : FsPath → Bool) (resolved : Option FsPath),
      run { config := cfgPath, once := false, strategy := strategy,
            json := true, verbose := verbose } env fs resolved =
        (.config, 0) ∧
      ExitCode.config.code = 2 := by
  intro cfgPath strategy verbose env fs resolved
  exact ⟨rfl, rfl⟩

/-- C7 (code bug): at the failing input — a BOTH-protocol request negotiated
over NAT-PMP — the wire call is issued with TCP, yet the call emits no log
event at all, in particular no warning about the BOTH-to-TCP collapse. -/
theorem natpmp_both_collapses_silently :
    (map_with_natpmp cfgBoth 0 parseOkSample discoverFail natEnvOk).wireCall =
      some { protocol := .tcp, internal_port := 6881, external := 6881,
             lifetime := 300 } ∧
    (map_with_natpmp cfgBoth 0 parseOkSample discoverFail natEnvOk).logs = [] :=
  ⟨rfl, rfl⟩

/-- C4: under strategy Auto, when the resolved forwarded-port file does not
exist but its parent directory does, plan resolution yields the File plan
carrying that path. -/
theorem resolve_plan_auto_prefers_file (fs : FsPath → Bool)
    (path parent : FsPath) (hpar : path.parent = some parent)
    (hfile : fs path = false) (hdir : fs parent = true) :
    resolve_plan .auto fs (some path) = .ok (.file path) := by
  simp [resolve_plan, prefer_file_strategy, resolve_forwarded_port_path,
    hpar, hfile, hdir]

/-- C4 witness: the concrete Proton VPN runtime path on a filesystem where
only its directory exists. -/
theorem resolve_plan_auto_prefers_file_witness :
    resolve_plan .auto fsOnlyDir (some vpnFile) = .ok (.file vpnFile) :=
  resolve_plan_auto_prefers_file fsOnlyDir vpnFile vpnDir rfl
    (by decide) (by decide)

/-- C1 counterexample: with a returned 4-second lease and a configured
refresh interval of 300 seconds the next wake delay is 10 seconds, not the
refresh interval; and with no lease and a configured interval of 5 seconds
the delay is 5 seconds, below the claimed 10-second floor. -/
theorem short_lease_delay_counterexample :
    next_delay (some (Duration.fromSecs 4)) 300 = Duration.fromSecs 10 ∧
    Duration.fromSecs 10 ≠ Duration.fromSecs 300 ∧
    next_delay none 5 = Duration.fromSecs 5 ∧
    Duration.fromSecs 5 ≠ Duration.fromSecs 10 := by
  refine ⟨rfl, by decide, rfl, by decide⟩

/-- C1 (amended): for a returned lease of at least 20 seconds the next wake
delay is half the lease; for a shorter returned lease it is exactly the
10-second floor; with no lease it is exactly the configured refresh interval
(no floor); and every successful portmap cycle returns a delay of this
form. -/
theorem next_delay_policy :
    (∀ (t : Duration) (refresh : Nat), Duration.fromSecs 20 ≤ t →
      next_delay (some t) refresh = t / 2) ∧
    (∀ (t : Duration) (refresh : Nat), t < Duration.fromSecs 20 →
      next_delay (some t) refresh = Duration.fromSecs 10) ∧
    (∀ refresh : Nat, next_delay none refresh = Duration.fromSecs refresh) ∧
    (∀ (mode : PortmapMode) (config : PortMapConfig) (bi : Option String)
      (rng : Nat) (parseIp : String → Except String IpAddr)
      (discover : Except String IpAddr)
      (pcpTry : MapRequest → Except AppError MapResult)
      (natEnv : NatpmpEnv) (qb : QbitEnv) (d : Duration),
      portmap_cycle mode config bi rng parseIp discover pcpTry natEnv qb =
        .ok d →
      ∃ ttl, d = next_delay ttl config.refresh_secs) := by
  refine ⟨?_, ?_, ?_, ?_⟩
  · intro t refresh h
    have h' : (20000 : Nat) ≤ t := h
    have h2 : (20000 : Nat) / 2 ≤ t / 2 := Nat.div_le_div_right h'
    have hle : Duration.fromSecs 10 ≤ t / 2 := by
      simpa [Duration.fromSecs] using h2
    simp [next_delay, Nat.max_eq_left hle]
  · intro t refresh h
    have h' : (t : Nat) ≤ 20000 := Nat.le_of_lt h
    have h2 : (t : Nat) / 2 ≤ 20000 / 2 := Nat.div_le_div_right h'
    have hle : t / 2 ≤ Duration.fromSecs 10 := by
      simpa [Duration.fromSecs] using h2
    simp [next_delay, Nat.max_eq_right hle]
  · intro refresh
    rfl
  · intro mode config bi rng parseIp discover pcpTry natEnv qb d h
    unfold portmap_cycle at h
    split at h
    · exact absurd h (by simp)
    · split at h
      · exact absurd h (by simp)
      · simp only [Except.ok.injEq] at h
        exact ⟨_, h.symm⟩

/-- C1 witness: the delay laws at concrete leases, and a concrete successful
NAT-PMP cycle with a 30-second lease whose returned delay has the
next_delay form. -/
theorem next_delay_policy_witness :
    Duration.fromSecs 20 ≤ Duration.fromSecs 60 ∧
    next_delay (some (Duration.fromSecs 60)) 300 = Duration.fromSecs 60 / 2 ∧
    Duration.fromSecs 4 < Duration.fromSecs 20 ∧
    next_delay (some (Duration.fromSecs 4)) 300 = Duration.fromSecs 10 ∧
    next_delay none 300 = Duration.fromSecs 300 ∧
    portmap_cycle .natOnly cfgSample none 0 parseOkSample discoverFail
      pcpUnsupported natEnv30 qbEnvSample = .ok (Duration.fromSecs 15) ∧
    (∃ ttl, Duration.fromSecs 15 = next_delay ttl cfgSample.refresh_secs) :=
  ⟨by decide,
   next_delay_policy.1 (Duration.fromSecs 60) 300 (by decide),
   by decide,
   next_delay_policy.2.1 (Duration.fromSecs 4) 300 (by decide),
   next_delay_policy.2.2.1 300,
   rfl,
   next_delay_policy.2.2.2 .natOnly cfgSample none 0 parseOkSample
     discoverFail pcpUnsupported natEnv30 qbEnvSample
     (Duration.fromSecs 15) rfl⟩

/-- C2: in Auto mapping mode, whenever the request builds, the PCP attempt
fails with any error and the NAT-PMP attempt succeeds, the cycle returns the
NAT-PMP mapping (whose strategy is NAT_PMP) and the attempt order is PCP
first, NAT-PMP second. -/
theorem auto_fallback_returns_natpmp (config : PortMapConfig) (rng : Nat)
    (parseIp : String → Except String IpAddr)
    (discover : Except String IpAddr)
    (pcpTry : MapRequest → Except AppError MapResult) (natEnv : NatpmpEnv)
    (request : MapRequest) (e : AppError) (r : MapResult)
    (hreq : build_request config rng parseIp discover = .ok request)
    (hpcp : pcpTry request = .error e)
    (hnat : (natpmp_map request natEnv).result = .ok r) :
    map_prefer_pcp_fallback_natpmp config rng parseIp discover pcpTry
      natEnv = (.ok r, [.pcp, .natpmp]) ∧
    r.strategy = .natPmp := by
  refine ⟨?_, natpmp_map_ok_strategy request natEnv r hnat⟩
  simp only [map_prefer_pcp_fallback_natpmp, hreq, hpcp, hnat]

/-- C2 witness: a concrete Auto cycle where PCP reports unsupported and
NAT-PMP answers with a 60-second lease on external port 23456. -/
theorem auto_fallback_returns_natpmp_witness :
    map_prefer_pcp_fallback_natpmp cfgSample 0 parseOkSample discoverFail
      pcpUnsupported natEnvOk = (.ok natResultSample, [.pcp, .natpmp]) ∧
    natResultSample.strategy = .natPmp :=
  auto_fallback_returns_natpmp cfgSample 0 parseOkSample discoverFail
    pcpUnsupported natEnvOk requestSample
    (.portmap (.pcpNotSupported "pcp feature not enabled at compile time"))
    natResultSample rfl rfl rfl

/-- C3 counterexample: with PCP failing with message "pcp boom" and NAT-PMP
failing with message "nat boom", the Auto cycle's returned error is exactly
the NAT-PMP error, whose display string does not carry the PCP message —
no combined error is produced. -/
theorem fallback_error_not_combined_counterexample :
    (map_prefer_pcp_fallback_natpmp cfgSample 0 parseOkSample discoverFail
        pcpBoom natEnvBoom).1 =
      .error (.portmap (.natPmp "nat boom")) ∧
    strContains (AppError.message (.portmap (.natPmp "nat boom")))
      "nat boom" = true ∧
    strContains (AppError.message (.portmap (.natPmp "nat boom")))
      "pcp boom" = false :=
  ⟨rfl, by decide, by decide⟩

/-- C3 (amended): when both attempts of an Auto cycle fail, the cycle fails
with the NAT-PMP error alone — the PCP error is only logged and is not
carried in the returned error. -/
theorem fallback_error_is_natpmp_only (config : PortMapConfig) (rng : Nat)
    (parseIp : String → Except String IpAddr)
    (discover : Except String IpAddr)
    (pcpTry : MapRequest → Except AppError MapResult) (natEnv : NatpmpEnv)
    (request : MapRequest) (ePcp eNat : AppError)
    (hreq : build_request config rng parseIp discover = .ok request)
    (hpcp : pcpTry request = .error ePcp)
    (hnat : (natpmp_map request natEnv).result = .error eNat) :
    map_prefer_pcp_fallback_natpmp config rng parseIp discover pcpTry
      natEnv = (.error eNat, [.pcp, .natpmp]) := by
  simp only [map_prefer_pcp_fallback_natpmp, hreq, hpcp, hnat]

/-- C3 witness: the amended behaviour at the concrete "pcp boom" /
"nat boom" inputs. -/
theorem fallback_error_is_natpmp_only_witness :
    map_prefer_pcp_fallback_natpmp cfgSample 0 parseOkSample discoverFail
      pcpBoom natEnvBoom =
      (.error (.portmap (.natPmp "nat boom")), [.pcp, .natpmp]) :=
  fallback_error_is_natpmp_only cfgSample 0 parseOkSample discoverFail
    pcpBoom natEnvBoom requestSample (.portmap (.pcp "pcp boom"))
    (.portmap (.natPmp "nat boom")) rfl rfl rfl

/-- C5 counterexample: with no gateway configured and autodiscovery
disabled, the gateway-resolution error is an untyped anyhow message, which
classify_error maps to Transient (exit code 1) — not to the claimed
configuration class (exit code 2). -/
theorem gateway_unconfigured_counterexample :
    resolve_gateway cfgNoGateway parseOkSample discoverFail =
      .error (.other "gateway discovery disabled and no gateway configured") ∧
    classify_error
        (.other "gateway discovery disabled and no gateway configured") =
      .transient ∧
    ExitCode.transient ≠ ExitCode.config ∧
    ExitCode.transient.code = 1 ∧
    ExitCode.config.code = 2 :=
  ⟨rfl, rfl, by decide, rfl, rfl⟩

/-- C5 (amended): with no non-empty gateway configured and autodiscovery
disabled, negotiation fails before any mapping attempt (the attempt trace is
empty) with the fixed anyhow message, and that error is classified Transient
(exit code 1), not as a configuration error. -/
theorem gateway_unconfigured_transient_no_attempt (config : PortMapConfig)
    (rng : Nat) (parseIp : String → Except String IpAddr)
    (discover : Except String IpAddr)
    (pcpTry : MapRequest → Except AppError MapResult) (natEnv : NatpmpEnv)
    (hgw : ∀ g, config.gateway = some g → strTrim g = "")
    (hauto : config.autodiscover_gateway = false) :
    resolve_gateway config parseIp discover =
      .error (.other "gateway discovery disabled and no gateway configured") ∧
    classify_error
        (.other "gateway discovery disabled and no gateway configured") =
      .transient ∧
    ExitCode.transient.code = 1 ∧
    map_prefer_pcp_fallback_natpmp config rng parseIp discover pcpTry
      natEnv =
      (.error
        (.other "gateway discovery disabled and no gateway configured"),
       []) := by
  have hrg : resolve_gateway config parseIp discover =
      .error (.other "gateway discovery disabled and no gateway configured") := by
    unfold resolve_gateway
    cases hg : config.gateway with
    | none => simp [hauto]
    | some g => simp [hgw g hg, hauto]
  have hbr : build_request config rng parseIp discover =
      .error (.other "gateway discovery disabled and no gateway configured") := by
    unfold build_request
    rw [hrg]
  refine ⟨hrg, rfl, rfl, ?_⟩
  simp only [map_prefer_pcp_fallback_natpmp, hbr]

/-- C5 witness: the amended behaviour at the concrete no-gateway
configuration. -/
theorem gateway_unconfigured_transient_no_attempt_witness :
    resolve_gateway cfgNoGateway parseOkSample discoverFail =
      .error (.other "gateway discovery disabled and no gateway configured") ∧
    classify_error
        (.other "gateway discovery disabled and no gateway configured") =
      .transient ∧
    ExitCode.transient.code = 1 ∧
    map_prefer_pcp_fallback_natpmp cfgNoGateway 0 parseOkSample discoverFail
      pcpUnsupported natEnvOk =
      (.error
        (.other "gateway discovery disabled and no gateway configured"),
       []) :=
  gateway_unconfigured_transient_no_attempt cfgNoGateway 0 parseOkSample
    discoverFail pcpUnsupported natEnvOk
    (by intro g hg; simp [cfgNoGateway] at hg) rfl

/-- C6: the file watcher never applies the same port twice in a row — the
applied-port sequence is pairwise-distinct between neighbours for every
apply-outcome oracle, initial read and event sequence — and three rapid
writes of 51413 produce exactly one application. -/
theorem run_file_watcher_dedup :
    (∀ (applyOk : Nat → Bool) (initialRead : Option Nat)
      (events : List (Option Nat)),
      List.Chain' (· ≠ ·) (run_file_watcher applyOk initialRead events)) ∧
    run_file_watcher (fun _ => true) none
      [some 51413, some 51413, some 51413] = [51413] := by
  constructor
  · intro applyOk initialRead events
    cases initialRead with
    | none => exact (watcher_loop_chain applyOk events none 0).1
    | some p =>
        rw [run_file_watcher]
        by_cases ha : applyOk 0
        · rw [if_pos ha, List.chain'_cons']
          refine ⟨?_, (watcher_loop_chain applyOk events (some p) 1).1⟩
          intro y hy
          have hne := (watcher_loop_chain applyOk events (some p) 1).2 y hy
          intro hpy
          exact hne (by rw [hpy])
        · rw [if_neg ha]
          exact List.chain'_singleton p
  · rfl

/-- C10: every set_listen_port call sends a payload containing listen_port
with the requested port, random_port=false and upnp=false, and every
successful call reports the port the client subsequently returned for
listen_port, with verified holding exactly when that port equals the
request. -/
theorem set_listen_port_contract (port : Nat) (bind_interface : Option String)
    (env : QbitEnv) :
    ("listen_port", JsonVal.num port) ∈
      (set_listen_port port bind_interface env).1 ∧
    ("random_port", JsonVal.bool false) ∈
      (set_listen_port port bind_interface env).1 ∧
    ("upnp", JsonVal.bool false) ∈
      (set_listen_port port bind_interface env).1 ∧
    ∀ result, (set_listen_port port bind_interface env).2 = .ok result →
      (result.verified = true ↔ result.detected_port = port) ∧
      ∀ prefs, env.getPrefs = .ok prefs →
        jsonGetU16 prefs "listen_port" = some result.detected_port := by
  have hpay := set_listen_port_payload port bind_interface env
  refine ⟨?_, ?_, ?_, ?_⟩
  · rw [hpay]
    exact List.mem_append_left _ (by simp [base_payload])
  · rw [hpay]
    exact List.mem_append_left _ (by simp [base_payload])
  · rw [hpay]
    exact List.mem_append_left _ (by simp [base_payload])
  · intro result hres
    rcases env with ⟨ifc, post, get⟩
    cases post with
    | error e => simp [set_listen_port] at hres
    | ok u =>
        cases get with
        | error e => simp [set_listen_port] at hres
        | ok prefs =>
            cases hu : jsonGetU16 prefs "listen_port" with
            | none => simp [set_listen_port, hu] at hres
            | some dp =>
                simp only [set_listen_port, hu, Except.ok.injEq] at hres
                subst hres
                refine ⟨by simp, ?_⟩
                intro prefs' hp
                simp only [Except.ok.injEq] at hp
                subst hp
                exact hu

/-- C10 witness: a concrete call requesting port 4242 against a client that
confirms 4242. -/
theorem set_listen_port_contract_witness :
    ("listen_port", JsonVal.num 4242) ∈
      (set_listen_port 4242 none qbEnv4242).1 ∧
    ("random_port", JsonVal.bool false) ∈
      (set_listen_port 4242 none qbEnv4242).1 ∧
    ("upnp", JsonVal.bool false) ∈
      (set_listen_port 4242 none qbEnv4242).1 ∧
    (updateResult4242.verified = true ↔
      updateResult4242.detected_port = 4242) ∧
    jsonGetU16 [("listen_port", JsonVal.num 4242)] "listen_port" =
      some updateResult4242.detected_port :=
  ⟨(set_listen_port_contract 4242 none qbEnv4242).1,
   (set_listen_port_contract 4242 none qbEnv4242).2.1,
   (set_listen_port_contract 4242 none qbEnv4242).2.2.1,
   ((set_listen_port_contract 4242 none qbEnv4242).2.2.2
     updateResult4242 rfl).1,
   ((set_listen_port_contract 4242 none qbEnv4242).2.2.2
     updateResult4242 rfl).2 [("listen_port", JsonVal.num 4242)] rfl⟩

end QbPortSync
